import Mathlib

/-
Shallow embedding of src/server/serverManager.ts (happy-cli): the local
service supervisor (health check, PID file bookkeeping, start/stop of the
backend child process).

Modelling conventions:
* `Sys` is the mutable world state (PID file content, live process table,
  counters, an event trace) threaded explicitly through every operation.
* `Env` fixes the nondeterministic answers of the outside world for one
  run: HTTP fetch outcomes, spawn results, and whether each fallible
  OS/filesystem call (mkdir, writeFile, unlink, process.kill) raises.
* JavaScript primitives used by the source (`parseInt`, `Number.toString`,
  `String.trim`, `||` defaulting, object spread) are embedded as faithful
  executable Lean functions below.
* Real-time quantities (the 3000 ms fetch abort, the 500 ms poll interval
  inside the 15000 ms readiness window, the 2000 ms grace period) appear
  structurally: the abort is a `FetchOutcome.timeout` outcome, the poll
  window is the 15000 / 500 = 30 check slots, and the grace period is the
  point where the `surviveTerm` oracle resolves whether SIGTERM killed the
  child.
-/

/-- Outcome of one HTTP GET issued by the health check: an HTTP response
with a status code, a network error (the fetch promise rejects), or the
3000 ms abort firing first. -/
inductive FetchOutcome where
  | response : Nat → FetchOutcome
  | netError : FetchOutcome
  | timeout : FetchOutcome
deriving DecidableEq, Repr

/-- Status predicate of `response.ok` in the fetch API: status in 200..299. -/
def respOk (status : Nat) : Bool :=
  decide (200 ≤ status) && decide (status ≤ 299)

/-- Body of `isServerRunning` before its try/catch: the fetch either yields
a response (return `response.ok`) or raises (network error or abort). -/
def isServerRunningTry : FetchOutcome → Except String Bool
  | .response st => .ok (respOk st)
  | .netError => .error "fetch failed"
  | .timeout => .error "operation was aborted"

/-- `ServerManager.isServerRunning` for one HTTP outcome: the try/catch
wrapper that turns every raised error into `false` (the error is only
logged), so the caller always receives a plain boolean. -/
def isServerRunning (f : FetchOutcome) : Bool :=
  match isServerRunningTry f with
  | .ok b => b
  | .error _ => false

/-- JavaScript whitespace recognised by the `String.prototype.trim` model
(ASCII part: space, tab, line feed, carriage return, vertical tab, form
feed). -/
def isJsSpace (c : Char) : Bool :=
  c == ' ' || c == '\t' || c == '\n' || c == '\r' || c == '\x0b' || c == '\x0c'

/-- Model of JavaScript `String.prototype.trim`: drop leading and trailing
whitespace characters. -/
def jsTrim (s : String) : String :=
  ⟨((s.data.dropWhile isJsSpace).reverse.dropWhile isJsSpace).reverse⟩

/-- Longest leading run of decimal digits, as digit values. -/
def takeDigits : List Char → List Nat
  | [] => []
  | c :: cs => if c.isDigit then (c.toNat - 48) :: takeDigits cs else []

/-- Value of a big-endian decimal digit list. -/
def digitsToNat (ds : List Nat) : Nat :=
  ds.foldl (fun a d => 10 * a + d) 0

/-- Value of a hexadecimal digit character, if any. -/
def hexVal (c : Char) : Option Nat :=
  if c.isDigit then some (c.toNat - 48)
  else if 'a' ≤ c ∧ c ≤ 'f' then some (c.toNat - 87)
  else if 'A' ≤ c ∧ c ≤ 'F' then some (c.toNat - 55)
  else none

/-- Longest leading run of hexadecimal digits, as digit values. -/
def takeHexDigits : List Char → List Nat
  | [] => []
  | c :: cs =>
    match hexVal c with
    | some d => d :: takeHexDigits cs
    | none => []

/-- Parse of the unsigned part of a JavaScript `parseInt` argument with
radix unspecified: a `0x`/`0X` prefix switches to hexadecimal, otherwise
the longest decimal digit prefix is taken; no digits means NaN (`none`). -/
def parseUnsigned (cs : List Char) : Option Nat :=
  match cs with
  | c0 :: c1 :: rest =>
    if c0 = '0' ∧ (c1 = 'x' ∨ c1 = 'X') then
      let ds := takeHexDigits rest
      if ds.isEmpty then none else some (ds.foldl (fun a d => 16 * a + d) 0)
    else
      let ds := takeDigits cs
      if ds.isEmpty then none else some (digitsToNat ds)
  | _ =>
    let ds := takeDigits cs
    if ds.isEmpty then none else some (digitsToNat ds)

/-- Model of JavaScript `parseInt(str)` (radix unspecified): optional sign,
then the unsigned parse; `none` models NaN. The source always applies it
to an already-trimmed string. -/
def parseIntJS (str : String) : Option Int :=
  match str.data with
  | [] => none
  | c :: cs =>
    if c = '-' then (parseUnsigned cs).map (fun v => -(v : Int))
    else if c = '+' then (parseUnsigned cs).map (fun v => (v : Int))
    else (parseUnsigned (c :: cs)).map (fun v => (v : Int))

/-- Character of a decimal digit value ('0'..'9' for d < 10). -/
def digitChar (d : Nat) : Char := Char.ofNat (48 + d)

/-- Little-endian decimal digit characters of `n`, with structural fuel
(`fuel ≥ n` suffices since the digit count never exceeds `n` for n ≥ 1). -/
def natDigitsCore : Nat → Nat → List Char
  | 0, _ => []
  | _ + 1, 0 => []
  | fuel + 1, m + 1 => digitChar ((m + 1) % 10) :: natDigitsCore fuel ((m + 1) / 10)

/-- Model of JavaScript `Number.prototype.toString` on a natural number:
decimal digits, big-endian, "0" for zero. -/
def jsNatToString (n : Nat) : String :=
  if n = 0 then "0" else ⟨(natDigitsCore n n).reverse⟩

/-- Model of JavaScript `Number.prototype.toString` on an integer. -/
def jsIntToString (p : Int) : String :=
  if p < 0 then "-" ++ jsNatToString p.natAbs else jsNatToString p.natAbs

/-- Model of the JavaScript `x || d` defaulting idiom on a possibly-absent
string: absent (`undefined`) and the empty string (falsy) both yield `d`. -/
def jsOr (o : Option String) (d : String) : String :=
  match o with
  | some v => if v = "" then d else v
  | none => d

/-- Observable events of one supervisor run, in order. -/
inductive Event where
  | spawnEv : Event
  | writePid : String → Event
  | health : String → Bool → Event
  | stopCall : Event
  | sigTerm : Int → Event
  | sigKill : Int → Event
  | unlinkPid : Event
deriving DecidableEq, Repr

/-- World state threaded through the supervisor operations: PID file
content (`none` = file absent), the set of live PIDs, the running index of
health checks (keys the fetch oracle), spawn and stop counters, and the
event trace. -/
structure Sys where
  pidFile : Option String
  procs : List Int
  healthCount : Nat
  spawnCount : Nat
  stopCalls : Nat
  trace : List Event
deriving DecidableEq, Repr

/-- Fixed answers of the outside world for one run: the fetch oracle
(keyed by request URL and by the index of the health check), the parent
process environment, the result of service-directory discovery, the PID
the spawn yields (`none` = child has no pid), whether the SIGTERM victim
is still alive when re-checked after the grace period, and whether each
fallible OS call raises. -/
structure Env where
  fetch : String → Nat → FetchOutcome
  parentEnv : String → Option String
  serverPathFound : Option String
  spawnPid : Option Int
  surviveTerm : Bool
  mkdirFails : Bool
  spawnThrows : Bool
  writeFails : Bool
  unlinkFails : Bool
  termThrows : Bool
  killThrows : Bool

/-- Input configuration of `startServer` (interface `ServerConfig`). -/
structure ServerConfig where
  databaseUrl : String
  redisUrl : String
  masterSecret : String
  port : Nat
  serverPath : Option String := none

/-- Caller-supplied partial configuration of `ensureServerRunning`
(`Partial ServerConfig`, every field optional). -/
structure PartialConfig where
  databaseUrl : Option String := none
  redisUrl : Option String := none
  masterSecret : Option String := none
  port : Option Nat := none
  serverPath : Option String := none

/-- `ServerManager.isProcessRunning`: the signal-0 existence probe
succeeds exactly when the PID is in the live process table. -/
def isProcessRunning (s : Sys) (pid : Int) : Bool :=
  s.procs.contains pid

/-- One stateful health check (`await this.isServerRunning(url)` at the
current check index): `isServerRunning` fetches `url ++ "/"`, the check
counter advances, and the result is traced. -/
def checkHealth (env : Env) (url : String) (s : Sys) : Bool × Sys :=
  let b := isServerRunning (env.fetch (url ++ "/") s.healthCount)
  (b, { s with healthCount := s.healthCount + 1, trace := s.trace ++ [.health url b] })

/-- Best-effort `fs.unlink(this.pidFile).catch(() => {})`: the attempt is
traced; a raising unlink leaves the file in place and is swallowed. -/
def unlinkPidFile (env : Env) (s : Sys) : Sys :=
  if env.unlinkFails then { s with trace := s.trace ++ [.unlinkPid] }
  else { s with pidFile := none, trace := s.trace ++ [.unlinkPid] }

/-- `ServerManager.getServerPid`: read the PID file (absent file raises,
caught to `null`), parse with `parseInt` after `trim`, probe liveness; a
live PID is returned, anything else (NaN pid included, whose probe call
raises inside `isProcessRunning` and is caught there) deletes the stale
file best-effort and yields `null`. -/
def getServerPid (env : Env) (s : Sys) : Option Int × Sys :=
  match s.pidFile with
  | none => (none, s)
  | some content =>
    match parseIntJS (jsTrim content) with
    | none => (none, unlinkPidFile env s)
    | some pid =>
      if isProcessRunning s pid then (some pid, s)
      else (none, unlinkPidFile env s)

/-- `ServerManager.stopServer`: resolve the recorded PID; when truthy,
send SIGTERM (a raise is caught by the outer try and yields `false`
without reaching the cleanup), wait the 2000 ms grace period (the
`surviveTerm` oracle resolves whether the child died), re-probe and send
SIGKILL if still alive (again a raise short-circuits to `false`); then
delete the PID file best-effort and return `true`. -/
def stopServer (env : Env) (s0 : Sys) : Bool × Sys :=
  let s := { s0 with stopCalls := s0.stopCalls + 1, trace := s0.trace ++ [.stopCall] }
  match getServerPid env s with
  | (some pid, s1) =>
    if pid ≠ 0 then
      let s2 := { s1 with trace := s1.trace ++ [.sigTerm pid] }
      if env.termThrows then (false, s2)
      else
        let s3 := { s2 with procs := if env.surviveTerm then s2.procs else s2.procs.erase pid }
        if isProcessRunning s3 pid then
          let s4 := { s3 with trace := s3.trace ++ [.sigKill pid] }
          if env.killThrows then (false, s4)
          else (true, unlinkPidFile env { s4 with procs := s4.procs.erase pid })
        else (true, unlinkPidFile env s3)
    else (true, unlinkPidFile env s1)
  | (none, s1) => (true, unlinkPidFile env s1)

/-- `ServerManager.findServerPath`: the candidate-directory probing
(sibling, parent, nested child, HAPPY_SERVER_PATH override, each accepted
on a matching package manifest) is filesystem I/O; its result for this run
is the environment's answer. -/
def findServerPath (env : Env) : Option String :=
  env.serverPathFound

/-- Resolution step 1 of `startServer`: `config.serverPath ||
await this.findServerPath()` — an absent or empty (falsy) explicit path
falls back to discovery. -/
def resolveServerPath (env : Env) (config : ServerConfig) : Option String :=
  match config.serverPath with
  | some p => if p = "" then findServerPath env else some p
  | none => findServerPath env

/-- Child environment built by `startServer`: object spread of the parent
process environment, then the four named overlays, with NODE_ENV defaulted
through `process.env.NODE_ENV || 'development'`. -/
def buildChildEnv (parent : String → Option String) (config : ServerConfig)
    : String → Option String :=
  fun k =>
    if k = "NODE_ENV" then some (jsOr (parent "NODE_ENV") "development")
    else if k = "PORT" then some (jsNatToString config.port)
    else if k = "HANDY_MASTER_SECRET" then some config.masterSecret
    else if k = "REDIS_URL" then some config.redisUrl
    else if k = "DATABASE_URL" then some config.databaseUrl
    else parent k

/-- Health URL used by `startServer` and `ensureServerRunning`. -/
def serverUrl (port : Nat) : String :=
  "http://localhost:" ++ jsNatToString port

/-- Poll loop of `waitForServerReady`: one health check per 500 ms slot,
success returns immediately. -/
def waitLoop (env : Env) (url : String) : Nat → Sys → Bool × Sys
  | 0, s => (false, s)
  | n + 1, s =>
    match checkHealth env url s with
    | (true, s1) => (true, s1)
    | (false, s1) => waitLoop env url n s1

/-- Number of check slots in the 15000 ms readiness window at one check
per 500 ms sleep. -/
def pollAttempts : Nat := 15000 / 500

/-- `ServerManager.waitForServerReady` with the default 15000 ms timeout. -/
def waitForServerReady (env : Env) (url : String) (s : Sys) : Bool × Sys :=
  waitLoop env url pollAttempts s

/-- Spawn phase of `startServer` (everything before readiness polling):
resolve the service directory (none short-circuits to failure), create the
log directory (a raise is caught to failure), spawn the detached child (a
raise is caught to failure; a successful spawn makes the child live), and
when the spawn yields a truthy PID write it to the PID file as decimal
text (a raising write is caught to failure). `true` means polling is
reached. -/
def startSpawnPhase (env : Env) (config : ServerConfig) (s : Sys) : Bool × Sys :=
  match resolveServerPath env config with
  | none => (false, s)
  | some _ =>
    if env.mkdirFails then (false, s)
    else if env.spawnThrows then
      (false, { s with spawnCount := s.spawnCount + 1, trace := s.trace ++ [.spawnEv] })
    else
      let s1 := { s with
        spawnCount := s.spawnCount + 1,
        procs := match env.spawnPid with | some p => p :: s.procs | none => s.procs,
        trace := s.trace ++ [.spawnEv] }
      match env.spawnPid with
      | some p =>
        if p ≠ 0 then
          if env.writeFails then (false, s1)
          else
            (true, { s1 with
              pidFile := some (jsIntToString p),
              trace := s1.trace ++ [.writePid (jsIntToString p)] })
        else (true, s1)
      | none => (true, s1)

/-- Polling tail of `startServer`: wait for readiness; on success detach
and return `true`, on timeout invoke `stopServer` to roll back and return
`false`. -/
def startFinish (env : Env) (url : String) (s1 : Sys) : Bool × Sys :=
  match waitForServerReady env url s1 with
  | (true, s2) => (true, s2)
  | (false, s2) => (false, (stopServer env s2).2)

/-- `ServerManager.startServer`: spawn phase, then readiness polling
against `http://localhost:{port}`. -/
def startServer (env : Env) (config : ServerConfig) (s : Sys) : Bool × Sys :=
  match startSpawnPhase env config s with
  | (true, s1) => startFinish env (serverUrl config.port) s1
  | (false, s1) => (false, s1)

/-- Default database URL of `ensureServerRunning`:
`postgresql://{USER || postgres}@localhost:5432/happy?schema=public`. -/
def defaultDatabaseUrl (parent : String → Option String) : String :=
  "postgresql://" ++ jsOr (parent "USER") "postgres"
    ++ "@localhost:5432/happy?schema=public"

/-- Config merge of `ensureServerRunning`: object spread of the caller's
partial config over the fixed development defaults. -/
def mergeConfig (parent : String → Option String) (pc : Option PartialConfig)
    : ServerConfig :=
  match pc with
  | none =>
    { databaseUrl := defaultDatabaseUrl parent
      redisUrl := "redis://localhost:6380"
      masterSecret := "development-secret-key-please-change-in-production"
      port := 3005 }
  | some c =>
    { databaseUrl := c.databaseUrl.getD (defaultDatabaseUrl parent)
      redisUrl := c.redisUrl.getD "redis://localhost:6380"
      masterSecret := c.masterSecret.getD "development-secret-key-please-change-in-production"
      port := c.port.getD 3005
      serverPath := c.serverPath }

/-- Port of the initial health probe of `ensureServerRunning`:
`config?.port || 3005` (absent config, absent port and port 0 are falsy). -/
def ensurePort (pc : Option PartialConfig) : Nat :=
  match pc with
  | some c =>
    match c.port with
    | some p => if p = 0 then 3005 else p
    | none => 3005
  | none => 3005

/-- `ServerManager.ensureServerRunning`: probe the configured (or default
3005) port; already healthy returns `true` at once, otherwise merge the
partial config over the development defaults and delegate to
`startServer`. -/
def ensureServerRunning (env : Env) (pc : Option PartialConfig) (s : Sys) : Bool × Sys :=
  match checkHealth env (serverUrl (ensurePort pc)) s with
  | (true, s1) => (true, s1)
  | (false, s1) => startServer env (mergeConfig env.parentEnv pc) s1

/-- Baseline run environment for concrete instantiations: health checks
always fail with a network error, discovery succeeds, the spawn yields PID
777, and no OS call raises. -/
def env0 : Env :=
  { fetch := fun _ _ => .netError
    parentEnv := fun _ => none
    serverPathFound := some "/opt/happy-server"
    spawnPid := some 777
    surviveTerm := false
    mkdirFails := false
    spawnThrows := false
    writeFails := false
    unlinkFails := false
    termThrows := false
    killThrows := false }

/-- Baseline world state for concrete instantiations: no PID file, no live
processes, empty counters and trace. -/
def sys0 : Sys :=
  { pidFile := none, procs := [], healthCount := 0, spawnCount := 0
    stopCalls := 0, trace := [] }

/-- Baseline configuration for concrete instantiations. -/
def cfg0 : ServerConfig :=
  { databaseUrl := "postgresql://postgres@localhost:5432/happy"
    redisUrl := "redis://localhost:6380"
    masterSecret := "secret"
    port := 3005
    serverPath := some "/opt/happy-server" }

/-- Parent environment of the C8 counterexample: NODE_ENV is present but
holds the empty string. -/
def parentC8 : String → Option String :=
  fun k => if k = "NODE_ENV" then some "" else none

/-! Helper lemmas about the JavaScript primitive models. -/

theorem digitChar_isDigit {d : Nat} (h : d < 10) : (digitChar d).isDigit = true := by
  interval_cases d <;> decide

theorem digitChar_val {d : Nat} (h : d < 10) : (digitChar d).toNat - 48 = d := by
  interval_cases d <;> decide

theorem isDigit_ne {c : Char} (h : c.isDigit = true) :
    c ≠ '-' ∧ c ≠ '+' ∧ c ≠ 'x' ∧ c ≠ 'X' := by
  refine ⟨?_, ?_, ?_, ?_⟩ <;> (intro hc; subst hc; revert h; decide)

theorem isDigit_not_space {c : Char} (h : c.isDigit = true) : isJsSpace c = false := by
  by_contra hc
  have hc' : isJsSpace c = true := by
    cases hx : isJsSpace c
    · exact absurd hx hc
    · rfl
  simp only [isJsSpace, Bool.or_eq_true, beq_iff_eq] at hc'
  rcases hc' with ((((rfl | rfl) | rfl) | rfl) | rfl) | rfl <;> revert h <;> decide

theorem mem_natDigitsCore_isDigit :
    ∀ f n c, c ∈ natDigitsCore f n → c.isDigit = true := by
  intro f
  induction f with
  | zero => intro n c h; simp [natDigitsCore] at h
  | succ f ih =>
    intro n c h
    cases n with
    | zero => simp [natDigitsCore] at h
    | succ m =>
      simp only [natDigitsCore, List.mem_cons] at h
      rcases h with h | h
      · subst h; exact digitChar_isDigit (Nat.mod_lt _ (by norm_num))
      · exact ih _ _ h

theorem natDigitsCore_ne_nil {f n : Nat} (hn : 0 < n) (hf : 0 < f) :
    natDigitsCore f n ≠ [] := by
  cases f with
  | zero => exact absurd hf (by omega)
  | succ f =>
    cases n with
    | zero => exact absurd hn (by omega)
    | succ m => simp [natDigitsCore]

theorem takeDigits_of_all :
    ∀ l : List Char, (∀ c ∈ l, c.isDigit = true) →
      takeDigits l = l.map (fun c => c.toNat - 48) := by
  intro l
  induction l with
  | nil => intro _; rfl
  | cons c cs ih =>
    intro h
    simp only [takeDigits, List.map_cons]
    rw [if_pos (h c (List.mem_cons_self c cs))]
    rw [ih (fun x hx => h x (List.mem_cons_of_mem c hx))]

theorem digitsToNat_append (xs : List Nat) (d : Nat) :
    digitsToNat (xs ++ [d]) = 10 * digitsToNat xs + d := by
  simp [digitsToNat, List.foldl_append]

theorem natDigitsCore_val :
    ∀ f n, n ≤ f →
      digitsToNat ((natDigitsCore f n).reverse.map (fun c => c.toNat - 48)) = n := by
  intro f
  induction f with
  | zero =>
    intro n h
    interval_cases n
    simp [natDigitsCore, digitsToNat]
  | succ f ih =>
    intro n h
    cases n with
    | zero => simp [natDigitsCore, digitsToNat]
    | succ m =>
      have hq : (m + 1) / 10 ≤ f := by
        have := Nat.div_lt_self (Nat.succ_pos m) (by norm_num : 1 < 10)
        omega
      simp only [natDigitsCore, List.reverse_cons, List.map_append, List.map_cons,
        List.map_nil]
      rw [digitsToNat_append, ih _ hq, digitChar_val (Nat.mod_lt _ (by norm_num))]
      omega

theorem parseUnsigned_digits (l : List Char) (hne : l ≠ [])
    (hd : ∀ c ∈ l, c.isDigit = true) :
    parseUnsigned l = some (digitsToNat (l.map fun c => c.toNat - 48)) := by
  match l, hne with
  | [c], _ =>
    have hc := hd c (by simp)
    show (if (takeDigits [c]).isEmpty then none
          else some (digitsToNat (takeDigits [c]))) = _
    rw [takeDigits_of_all [c] hd]
    simp
  | c0 :: c1 :: rest, _ =>
    have hc1 := hd c1 (by simp)
    have hx := (isDigit_ne hc1).2.2
    show (if c0 = '0' ∧ (c1 = 'x' ∨ c1 = 'X') then _
          else
            if (takeDigits (c0 :: c1 :: rest)).isEmpty then none
            else some (digitsToNat (takeDigits (c0 :: c1 :: rest)))) = _
    rw [if_neg (by rintro ⟨-, h | h⟩; exacts [hx.1 h, hx.2 h])]
    rw [takeDigits_of_all _ hd]
    simp

theorem parseIntJS_digits (l : List Char) (hne : l ≠ [])
    (hd : ∀ c ∈ l, c.isDigit = true) :
    parseIntJS ⟨l⟩ = some ((digitsToNat (l.map fun c => c.toNat - 48) : Nat) : Int) := by
  match l, hne with
  | c :: cs, _ =>
    have hc := hd c (by simp)
    have hne' := isDigit_ne hc
    show (if c = '-' then _ else if c = '+' then _
          else (parseUnsigned (c :: cs)).map (fun v => (v : Int))) = _
    rw [if_neg hne'.1, if_neg hne'.2.1, parseUnsigned_digits _ (by simp) hd]
    rfl

theorem parseIntJS_jsNatToString {n : Nat} (h : 0 < n) :
    parseIntJS (jsNatToString n) = some (n : Int) := by
  have hfz : n ≠ 0 := by omega
  rw [jsNatToString, if_neg hfz]
  have hne : (natDigitsCore n n).reverse ≠ [] := by
    simp only [ne_eq, List.reverse_eq_nil_iff]
    exact natDigitsCore_ne_nil h h
  have hall : ∀ c ∈ (natDigitsCore n n).reverse, c.isDigit = true := by
    intro c hc
    exact mem_natDigitsCore_isDigit n n c (List.mem_reverse.mp hc)
  rw [parseIntJS_digits _ hne hall, natDigitsCore_val n n le_rfl]

theorem dropWhile_of_false {p : Char → Bool} {l : List Char}
    (h : ∀ c ∈ l, p c = false) : l.dropWhile p = l := by
  cases l with
  | nil => rfl
  | cons c cs => simp [List.dropWhile, h c (List.mem_cons_self c cs)]

theorem jsTrim_of_no_space {s : String}
    (h : ∀ c ∈ s.data, isJsSpace c = false) : jsTrim s = s := by
  have h1 : s.data.dropWhile isJsSpace = s.data := dropWhile_of_false h
  have h2 : s.data.reverse.dropWhile isJsSpace = s.data.reverse :=
    dropWhile_of_false (fun c hc => h c (List.mem_reverse.mp hc))
  show (⟨(((s.data.dropWhile isJsSpace).reverse.dropWhile isJsSpace).reverse : List Char)⟩ : String) = s
  rw [h1, h2, List.reverse_reverse]

theorem jsIntToString_data {p : Int} (h : 0 < p) :
    (jsIntToString p).data = (natDigitsCore p.natAbs p.natAbs).reverse := by
  have hneg : ¬ p < 0 := by omega
  have hnz : p.natAbs ≠ 0 := by
    simp only [ne_eq, Int.natAbs_eq_zero]
    omega
  rw [jsIntToString, if_neg hneg, jsNatToString, if_neg hnz]

theorem parseIntJS_jsIntToString_trim {p : Int} (h : 0 < p) :
    parseIntJS (jsTrim (jsIntToString p)) = some p := by
  have habs : 0 < p.natAbs := by
    have := Int.natAbs_pos.mpr (by omega : p ≠ 0)
    omega
  have hnospace : ∀ c ∈ (jsIntToString p).data, isJsSpace c = false := by
    intro c hc
    rw [jsIntToString_data h] at hc
    exact isDigit_not_space (mem_natDigitsCore_isDigit _ _ c (List.mem_reverse.mp hc))
  rw [jsTrim_of_no_space hnospace]
  have hneg : ¬ p < 0 := by omega
  rw [jsIntToString, if_neg hneg, parseIntJS_jsNatToString habs,
    Int.natAbs_of_nonneg (by omega)]

/-! Helper lemmas about the supervisor operations. -/

theorem unlinkPidFile_proj (env : Env) (s : Sys) :
    (unlinkPidFile env s).procs = s.procs ∧
    (unlinkPidFile env s).healthCount = s.healthCount ∧
    (unlinkPidFile env s).spawnCount = s.spawnCount ∧
    (unlinkPidFile env s).stopCalls = s.stopCalls := by
  unfold unlinkPidFile
  split <;> exact ⟨rfl, rfl, rfl, rfl⟩

theorem unlinkPidFile_pidFile (env : Env) (s : Sys) (h : env.unlinkFails = false) :
    (unlinkPidFile env s).pidFile = none := by
  unfold unlinkPidFile
  rw [h]
  rfl

theorem getServerPid_proj (env : Env) (s : Sys) :
    (getServerPid env s).2.procs = s.procs ∧
    (getServerPid env s).2.healthCount = s.healthCount ∧
    (getServerPid env s).2.spawnCount = s.spawnCount ∧
    (getServerPid env s).2.stopCalls = s.stopCalls := by
  unfold getServerPid
  split
  · exact ⟨rfl, rfl, rfl, rfl⟩
  · split
    · exact unlinkPidFile_proj env _
    · split
      · exact ⟨rfl, rfl, rfl, rfl⟩
      · exact unlinkPidFile_proj env _

theorem getServerPid_of_pidFile_none (env : Env) (s : Sys) (h : s.pidFile = none) :
    getServerPid env s = (none, s) := by
  unfold getServerPid
  rw [h]

theorem unlinkPidFile_procs (env : Env) (s : Sys) :
    (unlinkPidFile env s).procs = s.procs :=
  (unlinkPidFile_proj env s).1

theorem unlinkPidFile_healthCount (env : Env) (s : Sys) :
    (unlinkPidFile env s).healthCount = s.healthCount :=
  (unlinkPidFile_proj env s).2.1

theorem unlinkPidFile_spawnCount (env : Env) (s : Sys) :
    (unlinkPidFile env s).spawnCount = s.spawnCount :=
  (unlinkPidFile_proj env s).2.2.1

theorem unlinkPidFile_stopCalls (env : Env) (s : Sys) :
    (unlinkPidFile env s).stopCalls = s.stopCalls :=
  (unlinkPidFile_proj env s).2.2.2

theorem stopServer_stopCalls (env : Env) (s : Sys) :
    (stopServer env s).2.stopCalls = s.stopCalls + 1 := by
  unfold stopServer
  dsimp only
  rcases hg : getServerPid env
      { s with stopCalls := s.stopCalls + 1, trace := s.trace ++ [.stopCall] }
    with ⟨pidOpt, s1⟩
  have hs1 : s1.stopCalls = s.stopCalls + 1 := by
    have h := (getServerPid_proj env
      { s with stopCalls := s.stopCalls + 1, trace := s.trace ++ [.stopCall] }).2.2.2
    rw [hg] at h
    exact h
  rcases pidOpt with _ | pid <;> dsimp only
  · simp [unlinkPidFile_stopCalls, hs1]
  · repeat' split
    all_goals simp [unlinkPidFile_stopCalls, hs1]

theorem stopServer_clears_pidFile (env : Env) (s : Sys)
    (hterm : env.termThrows = false) (hkill : env.killThrows = false)
    (hunlink : env.unlinkFails = false) :
    (stopServer env s).2.pidFile = none := by
  unfold stopServer
  dsimp only
  rcases hg : getServerPid env
      { s with stopCalls := s.stopCalls + 1, trace := s.trace ++ [.stopCall] }
    with ⟨pidOpt, s1⟩
  rcases pidOpt with _ | pid <;> dsimp only
  · exact unlinkPidFile_pidFile env s1 hunlink
  · repeat' split
    all_goals
      first
      | exact unlinkPidFile_pidFile env _ hunlink
      | simp_all

theorem getServerPid_live (env : Env) (s : Sys) {c : String} {p : Int}
    (hfile : s.pidFile = some c) (hparse : parseIntJS (jsTrim c) = some p)
    (hlive : s.procs.contains p = true) :
    getServerPid env s = (some p, s) := by
  unfold getServerPid
  rw [hfile]
  dsimp only
  rw [hparse]
  dsimp only
  rw [isProcessRunning, hlive]
  rfl

theorem stopServer_term_raises (env : Env) (s : Sys) {c : String} {p : Int}
    (hfile : s.pidFile = some c) (hparse : parseIntJS (jsTrim c) = some p)
    (hp0 : p ≠ 0) (hlive : s.procs.contains p = true)
    (hterm : env.termThrows = true) :
    stopServer env s =
      (false, { s with stopCalls := s.stopCalls + 1,
                       trace := s.trace ++ [.stopCall, .sigTerm p] }) := by
  unfold stopServer
  dsimp only
  rw [getServerPid_live env
    { s with stopCalls := s.stopCalls + 1, trace := s.trace ++ [.stopCall] }
    hfile hparse hlive]
  dsimp only
  rw [if_pos hp0, hterm]
  simp

theorem stopServer_survivor_run (env : Env) (s : Sys) {c : String} {p : Int}
    (hfile : s.pidFile = some c) (hparse : parseIntJS (jsTrim c) = some p)
    (hp0 : p ≠ 0) (hlive : s.procs.contains p = true)
    (hsurv : env.surviveTerm = true) (hterm : env.termThrows = false)
    (hkill : env.killThrows = false) (hunlink : env.unlinkFails = false) :
    stopServer env s =
      (true, { s with stopCalls := s.stopCalls + 1,
                      procs := s.procs.erase p,
                      pidFile := none,
                      trace := s.trace ++ [.stopCall, .sigTerm p, .sigKill p, .unlinkPid] }) := by
  unfold stopServer
  dsimp only
  rw [getServerPid_live env
    { s with stopCalls := s.stopCalls + 1, trace := s.trace ++ [.stopCall] }
    hfile hparse hlive]
  dsimp only
  rw [if_pos hp0, hterm]
  simp only [Bool.false_eq_true, if_false]
  rw [hsurv]
  simp only [if_true]
  rw [show isProcessRunning
      { s with stopCalls := s.stopCalls + 1,
               trace := s.trace ++ [.stopCall] ++ [.sigTerm p] } p = true from hlive]
  simp only [if_true]
  rw [hkill]
  simp only [Bool.false_eq_true, if_false]
  unfold unlinkPidFile
  rw [hunlink]
  simp

theorem waitLoop_all_false (env : Env) (url : String)
    (hf : ∀ n, isServerRunning (env.fetch (url ++ "/") n) = false) :
    ∀ fuel s,
      (waitLoop env url fuel s).1 = false ∧
      (waitLoop env url fuel s).2.pidFile = s.pidFile ∧
      (waitLoop env url fuel s).2.procs = s.procs ∧
      (waitLoop env url fuel s).2.spawnCount = s.spawnCount ∧
      (waitLoop env url fuel s).2.stopCalls = s.stopCalls := by
  intro fuel
  induction fuel with
  | zero => intro s; exact ⟨rfl, rfl, rfl, rfl, rfl⟩
  | succ n ih =>
    intro s
    have hch : checkHealth env url s =
        (false, { s with healthCount := s.healthCount + 1,
                         trace := s.trace ++ [.health url false] }) := by
      unfold checkHealth
      rw [hf s.healthCount]
    have hstep : waitLoop env url (n + 1) s =
        waitLoop env url n
          { s with healthCount := s.healthCount + 1,
                   trace := s.trace ++ [.health url false] } := by
      show (match checkHealth env url s with
            | (true, s1) => (true, s1)
            | (false, s1) => waitLoop env url n s1) = _
      rw [hch]
    rw [hstep]
    exact ih _

theorem waitLoop_first_true (env : Env) (url : String) (fuel : Nat) (s : Sys)
    (hh : isServerRunning (env.fetch (url ++ "/") s.healthCount) = true) :
    waitLoop env url (fuel + 1) s =
      (true, { s with healthCount := s.healthCount + 1,
                      trace := s.trace ++ [.health url true] }) := by
  have hch : checkHealth env url s =
      (true, { s with healthCount := s.healthCount + 1,
                      trace := s.trace ++ [.health url true] }) := by
    unfold checkHealth
    rw [hh]
  show (match checkHealth env url s with
        | (true, s1) => (true, s1)
        | (false, s1) => waitLoop env url fuel s1) = _
  rw [hch]

theorem startSpawnPhase_spec (env : Env) (config : ServerConfig) (s : Sys)
    {sp : String} {p : Int}
    (hpath : resolveServerPath env config = some sp)
    (hmk : env.mkdirFails = false) (hspthrow : env.spawnThrows = false)
    (hpid : env.spawnPid = some p) (hp0 : p ≠ 0) (hw : env.writeFails = false) :
    startSpawnPhase env config s =
      (true, { s with
        spawnCount := s.spawnCount + 1,
        procs := p :: s.procs,
        pidFile := some (jsIntToString p),
        trace := s.trace ++ [.spawnEv, .writePid (jsIntToString p)] }) := by
  unfold startSpawnPhase
  rw [hpath]
  dsimp only
  rw [hmk, hspthrow]
  simp only [Bool.false_eq_true, if_false]
  rw [hpid]
  dsimp only
  rw [if_pos hp0, hw]
  simp

theorem startSpawnPhase_no_pid (env : Env) (config : ServerConfig) (s : Sys)
    {sp : String}
    (hpath : resolveServerPath env config = some sp)
    (hmk : env.mkdirFails = false) (hspthrow : env.spawnThrows = false)
    (hpid : env.spawnPid = none) :
    startSpawnPhase env config s =
      (true, { s with
        spawnCount := s.spawnCount + 1,
        trace := s.trace ++ [.spawnEv] }) := by
  unfold startSpawnPhase
  rw [hpath]
  dsimp only
  rw [hmk, hspthrow]
  simp only [Bool.false_eq_true, if_false]
  rw [hpid]

/-! Claim theorems. -/

/-- C6: `isServerRunning` returns `true` iff the HTTP GET yields a response
with a success status (200..299) within the timeout; any network failure,
non-success status, or timeout yields `false`, and every error raised by
the underlying fetch is caught (never propagated to the caller). -/
theorem isServerRunning_ok_iff (f : FetchOutcome) :
    (isServerRunning f = true ↔ ∃ st, f = .response st ∧ 200 ≤ st ∧ st ≤ 299) ∧
    (∀ e, isServerRunningTry f = .error e → isServerRunning f = false) := by
  cases f with
  | response st =>
    constructor
    · simp [isServerRunning, isServerRunningTry, respOk]
    · intro e he
      simp [isServerRunningTry] at he
  | netError =>
    constructor
    · simp [isServerRunning, isServerRunningTry]
    · intro e _
      rfl
  | timeout =>
    constructor
    · simp [isServerRunning, isServerRunningTry]
    · intro e _
      rfl

/-- Witness for C6 at concrete outcomes: a 204 response is healthy, an
abort/timeout is not. -/
theorem isServerRunning_ok_iff_witness :
    isServerRunning (FetchOutcome.response 204) = true ∧
    isServerRunning FetchOutcome.timeout = false :=
  ⟨(isServerRunning_ok_iff (FetchOutcome.response 204)).1.mpr
      ⟨204, rfl, by norm_num, by norm_num⟩,
   (isServerRunning_ok_iff FetchOutcome.timeout).2 "operation was aborted" rfl⟩

/-- C2: when the PID file holds content that parses to a PID with no live
process, `getServerPid` returns `none`; the stale file is deleted
best-effort (gone whenever the unlink does not raise, and a raising unlink
is swallowed — the call still returns `none` rather than throwing). -/
theorem getServerPid_stale_self_heal (env : Env) (s : Sys) {c : String} {p : Int}
    (hfile : s.pidFile = some c) (hparse : parseIntJS (jsTrim c) = some p)
    (hdead : s.procs.contains p = false) :
    (getServerPid env s).1 = none ∧
    (env.unlinkFails = false → (getServerPid env s).2.pidFile = none) := by
  have hrun : getServerPid env s = (none, unlinkPidFile env s) := by
    unfold getServerPid
    rw [hfile]
    dsimp only
    rw [hparse]
    dsimp only
    rw [isProcessRunning, hdead]
    simp
  rw [hrun]
  exact ⟨rfl, fun h => unlinkPidFile_pidFile env s h⟩

/-- Witness for C2: PID file "99" with no live process 99. -/
theorem getServerPid_stale_self_heal_witness :
    (getServerPid env0 { sys0 with pidFile := some "99" }).1 = none ∧
    (getServerPid env0 { sys0 with pidFile := some "99" }).2.pidFile = none := by
  have h := getServerPid_stale_self_heal env0 { sys0 with pidFile := some "99" }
    rfl rfl rfl
  exact ⟨h.1, h.2 rfl⟩

/-- C10: after any `getServerPid` call whose best-effort deletion does not
raise, if the PID file still exists then its content parses to a PID of a
live process — every readable content not denoting a live process (dead
PID or unparsable text, whose liveness probe raises and is caught) gets
its file removed. -/
theorem getServerPid_post_live_invariant (env : Env) (s : Sys)
    (hunlink : env.unlinkFails = false) :
    ∀ c, (getServerPid env s).2.pidFile = some c →
      ∃ p, parseIntJS (jsTrim c) = some p ∧ s.procs.contains p = true := by
  intro c hc
  rcases hfile : s.pidFile with _ | content
  · rw [getServerPid_of_pidFile_none env s hfile] at hc
    dsimp only at hc
    rw [hfile] at hc
    exact Option.noConfusion hc
  · rcases hparse : parseIntJS (jsTrim content) with _ | p
    · have hrun : getServerPid env s = (none, unlinkPidFile env s) := by
        unfold getServerPid
        rw [hfile]
        dsimp only
        rw [hparse]
      rw [hrun] at hc
      dsimp only at hc
      rw [unlinkPidFile_pidFile env s hunlink] at hc
      exact Option.noConfusion hc
    · by_cases hlive : s.procs.contains p = true
      · rw [getServerPid_live env s hfile hparse hlive] at hc
        dsimp only at hc
        rw [hfile] at hc
        obtain rfl : content = c := Option.some.inj hc
        exact ⟨p, hparse, hlive⟩
      · have hdead : s.procs.contains p = false := by
          cases hx : s.procs.contains p
          · rfl
          · exact absurd hx hlive
        have hrun : getServerPid env s = (none, unlinkPidFile env s) := by
          unfold getServerPid
          rw [hfile]
          dsimp only
          rw [hparse]
          dsimp only
          rw [isProcessRunning, hdead]
          simp
        rw [hrun] at hc
        dsimp only at hc
        rw [unlinkPidFile_pidFile env s hunlink] at hc
        exact Option.noConfusion hc

/-- Witness for C10: the kept file "42" denotes the live process 42. -/
theorem getServerPid_post_live_invariant_witness :
    ∃ p, parseIntJS (jsTrim "42") = some p ∧
      ({ sys0 with pidFile := some "42", procs := [42] } : Sys).procs.contains p = true :=
  getServerPid_post_live_invariant env0
    { sys0 with pidFile := some "42", procs := [42] } rfl "42" rfl

/-- C5: when the health check against the configured (or default 3005)
port already reports healthy, `ensureServerRunning` returns `true` at once
and performs no spawn (the spawn counter is unchanged) — so a repeated
call while the service stays healthy spawns nothing. -/
theorem ensureServerRunning_healthy_no_spawn (env : Env) (pc : Option PartialConfig)
    (s : Sys)
    (hh : isServerRunning (env.fetch (serverUrl (ensurePort pc) ++ "/") s.healthCount)
      = true) :
    (ensureServerRunning env pc s).1 = true ∧
    (ensureServerRunning env pc s).2.spawnCount = s.spawnCount := by
  have hch : checkHealth env (serverUrl (ensurePort pc)) s =
      (true, { s with healthCount := s.healthCount + 1,
                      trace := s.trace ++ [.health (serverUrl (ensurePort pc)) true] }) := by
    unfold checkHealth
    rw [hh]
  unfold ensureServerRunning
  rw [hch]
  exact ⟨rfl, rfl⟩

/-- Witness for C5: a healthy service at the default port. -/
theorem ensureServerRunning_healthy_no_spawn_witness :
    (ensureServerRunning { env0 with fetch := fun _ _ => FetchOutcome.response 200 }
      none sys0).1 = true ∧
    (ensureServerRunning { env0 with fetch := fun _ _ => FetchOutcome.response 200 }
      none sys0).2.spawnCount = sys0.spawnCount :=
  ensureServerRunning_healthy_no_spawn
    { env0 with fetch := fun _ _ => FetchOutcome.response 200 } none sys0 rfl

/-- C3 counterexample: with a live recorded PID (file "42", process 42
alive) and a SIGTERM call that raises, `stopServer` returns `false` with
the PID file untouched and no unlink attempt in the trace — deletion of
the PID file is NOT attempted, contrary to the claim. -/
theorem stopServer_cleanup_claim_counterexample :
    (stopServer { env0 with termThrows := true }
      { sys0 with pidFile := some "42", procs := [42] }).1 = false ∧
    (stopServer { env0 with termThrows := true }
      { sys0 with pidFile := some "42", procs := [42] }).2.pidFile = some "42" ∧
    Event.unlinkPid ∉ (stopServer { env0 with termThrows := true }
      { sys0 with pidFile := some "42", procs := [42] }).2.trace := by
  decide

/-- C3 (amended): when a live recorded PID is found but sending the
termination signal raises, `stopServer` logs and returns `false`, and the
PID-file deletion is skipped (the raise short-circuits past the cleanup):
the file is unchanged and this invocation appended only the stop entry and
the SIGTERM attempt, no unlink attempt. -/
theorem stopServer_signal_error_skips_cleanup (env : Env) (s : Sys)
    {c : String} {p : Int}
    (hfile : s.pidFile = some c) (hparse : parseIntJS (jsTrim c) = some p)
    (hp0 : p ≠ 0) (hlive : s.procs.contains p = true)
    (hterm : env.termThrows = true) :
    (stopServer env s).1 = false ∧
    (stopServer env s).2.pidFile = some c ∧
    (stopServer env s).2.trace = s.trace ++ [.stopCall, .sigTerm p] := by
  rw [stopServer_term_raises env s hfile hparse hp0 hlive hterm]
  exact ⟨rfl, hfile, rfl⟩

/-- Witness for the amended C3. -/
theorem stopServer_signal_error_skips_cleanup_witness :
    (stopServer { env0 with termThrows := true }
      { sys0 with pidFile := some "42", procs := [42] }).1 = false ∧
    (stopServer { env0 with termThrows := true }
      { sys0 with pidFile := some "42", procs := [42] }).2.pidFile = some "42" ∧
    (stopServer { env0 with termThrows := true }
      { sys0 with pidFile := some "42", procs := [42] }).2.trace =
      [Event.stopCall, Event.sigTerm 42] := by
  have h := stopServer_signal_error_skips_cleanup { env0 with termThrows := true }
    { sys0 with pidFile := some "42", procs := [42] } rfl rfl (by decide) rfl rfl
  exact ⟨h.1, h.2.1, h.2.2⟩

/-- C4: when the recorded process is live, survives SIGTERM through the
grace period, and no OS call raises, `stopServer` sends SIGKILL strictly
after SIGTERM (the trace appends stop, SIGTERM, SIGKILL, unlink in that
order) and the PID file is absent afterwards. -/
theorem stopServer_graceful_then_forceful (env : Env) (s : Sys)
    {c : String} {p : Int}
    (hfile : s.pidFile = some c) (hparse : parseIntJS (jsTrim c) = some p)
    (hp0 : p ≠ 0) (hlive : s.procs.contains p = true)
    (hsurv : env.surviveTerm = true) (hterm : env.termThrows = false)
    (hkill : env.killThrows = false) (hunlink : env.unlinkFails = false) :
    (stopServer env s).2.trace =
      s.trace ++ [.stopCall, .sigTerm p, .sigKill p, .unlinkPid] ∧
    (stopServer env s).2.pidFile = none ∧
    (stopServer env s).1 = true := by
  rw [stopServer_survivor_run env s hfile hparse hp0 hlive hsurv hterm hkill hunlink]
  exact ⟨rfl, rfl, rfl⟩

/-- Witness for C4: process 42 ignores SIGTERM. -/
theorem stopServer_graceful_then_forceful_witness :
    (stopServer { env0 with surviveTerm := true }
      { sys0 with pidFile := some "42", procs := [42] }).2.trace =
      [Event.stopCall, Event.sigTerm 42, Event.sigKill 42, Event.unlinkPid] ∧
    (stopServer { env0 with surviveTerm := true }
      { sys0 with pidFile := some "42", procs := [42] }).2.pidFile = none ∧
    (stopServer { env0 with surviveTerm := true }
      { sys0 with pidFile := some "42", procs := [42] }).1 = true := by
  have h := stopServer_graceful_then_forceful { env0 with surviveTerm := true }
    { sys0 with pidFile := some "42", procs := [42] } rfl rfl (by decide) rfl rfl rfl rfl rfl
  exact ⟨h.1, h.2.1, h.2.2⟩

/-- C7: in every `startServer` run whose spawn yields a real (truthy) PID
and whose path/mkdir/spawn/write steps do not fail, the PID file holds
that PID as decimal text at the end of the spawn phase — overwriting any
prior content, with the write traced before any polling — and the whole of
`startServer` is the readiness-polling tail run from that state. -/
theorem startServer_writes_pid_before_poll (env : Env) (config : ServerConfig)
    (s : Sys) {sp : String} {p : Int}
    (hpath : resolveServerPath env config = some sp)
    (hmk : env.mkdirFails = false) (hspthrow : env.spawnThrows = false)
    (hpid : env.spawnPid = some p) (hp0 : p ≠ 0) (hw : env.writeFails = false) :
    (startSpawnPhase env config s).1 = true ∧
    (startSpawnPhase env config s).2.pidFile = some (jsIntToString p) ∧
    (startSpawnPhase env config s).2.trace =
      s.trace ++ [.spawnEv, .writePid (jsIntToString p)] ∧
    startServer env config s =
      startFinish env (serverUrl config.port) (startSpawnPhase env config s).2 := by
  have hsp := startSpawnPhase_spec env config s hpath hmk hspthrow hpid hp0 hw
  rw [hsp]
  refine ⟨rfl, rfl, rfl, ?_⟩
  unfold startServer
  rw [hsp]

/-- Witness for C7: spawn yields PID 777. -/
theorem startServer_writes_pid_before_poll_witness :
    (startSpawnPhase env0 cfg0 sys0).1 = true ∧
    (startSpawnPhase env0 cfg0 sys0).2.pidFile = some (jsIntToString 777) ∧
    (startSpawnPhase env0 cfg0 sys0).2.trace =
      [Event.spawnEv, Event.writePid (jsIntToString 777)] ∧
    startServer env0 cfg0 sys0 =
      startFinish env0 (serverUrl cfg0.port) (startSpawnPhase env0 cfg0 sys0).2 := by
  have h := startServer_writes_pid_before_poll env0 cfg0 sys0 rfl rfl rfl rfl
    (by decide) rfl
  exact ⟨h.1, h.2.1, h.2.2.1, h.2.2.2⟩

/-- C9: when the spawn yields no PID, `startServer` skips the PID-file
write but still polls readiness, so it can return `true` (here: first poll
healthy) while no PID record exists — `getServerPid` afterwards finds
nothing for the spawned child. -/
theorem startServer_true_without_pid_record (env : Env) (config : ServerConfig)
    (s : Sys) {sp : String}
    (hpath : resolveServerPath env config = some sp)
    (hmk : env.mkdirFails = false) (hspthrow : env.spawnThrows = false)
    (hpid : env.spawnPid = none) (hfile : s.pidFile = none)
    (hh : isServerRunning (env.fetch (serverUrl config.port ++ "/") s.healthCount)
      = true) :
    (startServer env config s).1 = true ∧
    (startServer env config s).2.pidFile = none ∧
    (getServerPid env (startServer env config s).2).1 = none ∧
    (startServer env config s).2.trace =
      s.trace ++ [.spawnEv, .health (serverUrl config.port) true] ∧
    (startServer env config s).2.spawnCount = s.spawnCount + 1 := by
  have hsp := startSpawnPhase_no_pid env config s hpath hmk hspthrow hpid
  have hrun : startServer env config s =
      (true, { s with spawnCount := s.spawnCount + 1,
                      healthCount := s.healthCount + 1,
                      trace := s.trace ++ [.spawnEv, .health (serverUrl config.port) true] }) := by
    unfold startServer
    rw [hsp]
    dsimp only
    unfold startFinish waitForServerReady
    rw [show pollAttempts = 29 + 1 from rfl]
    rw [waitLoop_first_true env (serverUrl config.port) 29
      { s with spawnCount := s.spawnCount + 1, trace := s.trace ++ [.spawnEv] } hh]
    simp
  rw [hrun]
  refine ⟨rfl, hfile, ?_, rfl, rfl⟩
  dsimp only
  rw [getServerPid_of_pidFile_none env
    { s with spawnCount := s.spawnCount + 1, healthCount := s.healthCount + 1,
             trace := s.trace ++ [.spawnEv, .health (serverUrl config.port) true] }
    hfile]

/-- Witness for C9: pid-less spawn with an immediately healthy service. -/
theorem startServer_true_without_pid_record_witness :
    (startServer { env0 with spawnPid := none, fetch := fun _ _ => FetchOutcome.response 200 }
      cfg0 sys0).1 = true ∧
    (startServer { env0 with spawnPid := none, fetch := fun _ _ => FetchOutcome.response 200 }
      cfg0 sys0).2.pidFile = none ∧
    (getServerPid { env0 with spawnPid := none, fetch := fun _ _ => FetchOutcome.response 200 }
      (startServer { env0 with spawnPid := none, fetch := fun _ _ => FetchOutcome.response 200 }
        cfg0 sys0).2).1 = none ∧
    (startServer { env0 with spawnPid := none, fetch := fun _ _ => FetchOutcome.response 200 }
      cfg0 sys0).2.trace = [Event.spawnEv, Event.health (serverUrl cfg0.port) true] ∧
    (startServer { env0 with spawnPid := none, fetch := fun _ _ => FetchOutcome.response 200 }
      cfg0 sys0).2.spawnCount = sys0.spawnCount + 1 := by
  have h := startServer_true_without_pid_record
    { env0 with spawnPid := none, fetch := fun _ _ => FetchOutcome.response 200 }
    cfg0 sys0 rfl rfl rfl rfl rfl rfl
  exact ⟨h.1, h.2.1, h.2.2.1, h.2.2.2.1, h.2.2.2.2⟩

/-- C1: when the spawn succeeds with a real PID and every health check
against the spawned service's URL fails throughout the readiness poll (and
no signal/unlink call raises during the rollback), `startServer` invokes
`stopServer` on the just-spawned child (stop counter advances by one),
returns `false`, and afterwards `getServerPid` returns `none` with no PID
file left behind. -/
theorem startServer_rollback_on_health_timeout (env : Env) (config : ServerConfig)
    (s : Sys) {sp : String} {p : Int}
    (hpath : resolveServerPath env config = some sp)
    (hmk : env.mkdirFails = false) (hspthrow : env.spawnThrows = false)
    (hpid : env.spawnPid = some p) (hppos : 0 < p) (hw : env.writeFails = false)
    (hfail : ∀ n, isServerRunning (env.fetch (serverUrl config.port ++ "/") n) = false)
    (hterm : env.termThrows = false) (hkill : env.killThrows = false)
    (hunlink : env.unlinkFails = false) :
    (startServer env config s).1 = false ∧
    (startServer env config s).2.pidFile = none ∧
    (getServerPid env (startServer env config s).2).1 = none ∧
    (startServer env config s).2.stopCalls = s.stopCalls + 1 := by
  have hp0 : p ≠ 0 := by omega
  have hsp := startSpawnPhase_spec env config s hpath hmk hspthrow hpid hp0 hw
  have hwl := waitLoop_all_false env (serverUrl config.port) hfail pollAttempts
    { s with spawnCount := s.spawnCount + 1, procs := p :: s.procs,
             pidFile := some (jsIntToString p),
             trace := s.trace ++ [.spawnEv, .writePid (jsIntToString p)] }
  rcases hpair : waitLoop env (serverUrl config.port) pollAttempts
      { s with spawnCount := s.spawnCount + 1, procs := p :: s.procs,
               pidFile := some (jsIntToString p),
               trace := s.trace ++ [.spawnEv, .writePid (jsIntToString p)] }
    with ⟨ready, s2⟩
  rw [hpair] at hwl
  obtain ⟨hready, hpf, hpr, hspawn, hst⟩ := hwl
  dsimp only at hready hpf hpr hspawn hst
  subst hready
  have hrun : startServer env config s = (false, (stopServer env s2).2) := by
    unfold startServer
    rw [hsp]
    dsimp only
    unfold startFinish waitForServerReady
    rw [hpair]
  rw [hrun]
  have hclear : (stopServer env s2).2.pidFile = none :=
    stopServer_clears_pidFile env s2 hterm hkill hunlink
  refine ⟨rfl, hclear, ?_, ?_⟩
  · dsimp only
    rw [getServerPid_of_pidFile_none env (stopServer env s2).2 hclear]
  · dsimp only
    rw [stopServer_stopCalls env s2, hst]

/-- Witness for C1: spawn succeeds with PID 777 but the service never
becomes healthy (every fetch is a network error). -/
theorem startServer_rollback_on_health_timeout_witness :
    (startServer env0 cfg0 sys0).1 = false ∧
    (startServer env0 cfg0 sys0).2.pidFile = none ∧
    (getServerPid env0 (startServer env0 cfg0 sys0).2).1 = none ∧
    (startServer env0 cfg0 sys0).2.stopCalls = sys0.stopCalls + 1 :=
  startServer_rollback_on_health_timeout env0 cfg0 sys0 rfl rfl rfl rfl
    (by decide) rfl (fun _ => rfl) rfl rfl rfl

/-- C8 counterexample: with NODE_ENV present in the parent environment as
the empty string, `startServer`'s child environment still replaces it with
"development" — the development-mode flag is defaulted although it is not
absent, because the source uses falsy-or defaulting. -/
theorem buildChildEnv_default_claim_counterexample :
    parentC8 "NODE_ENV" = some "" ∧
    buildChildEnv parentC8 cfg0 "NODE_ENV" = some "development" := by
  constructor
  · rfl
  · rfl

/-- C8 (amended): the child environment inherits every parent variable not
overlaid, overlays DATABASE_URL, REDIS_URL, HANDY_MASTER_SECRET and PORT
(decimal text) from the configuration, and defaults NODE_ENV to
"development" exactly when it is absent from the parent environment or set
to the empty string (JavaScript falsy-or), keeping any other parent
value. -/
theorem buildChildEnv_inherit_overlay_default (parent : String → Option String)
    (config : ServerConfig) :
    buildChildEnv parent config "DATABASE_URL" = some config.databaseUrl ∧
    buildChildEnv parent config "REDIS_URL" = some config.redisUrl ∧
    buildChildEnv parent config "HANDY_MASTER_SECRET" = some config.masterSecret ∧
    buildChildEnv parent config "PORT" = some (jsNatToString config.port) ∧
    (parent "NODE_ENV" = none ∨ parent "NODE_ENV" = some "" →
      buildChildEnv parent config "NODE_ENV" = some "development") ∧
    (∀ v, parent "NODE_ENV" = some v → v ≠ "" →
      buildChildEnv parent config "NODE_ENV" = some v) ∧
    (∀ k, k ≠ "DATABASE_URL" → k ≠ "REDIS_URL" → k ≠ "HANDY_MASTER_SECRET" →
      k ≠ "PORT" → k ≠ "NODE_ENV" → buildChildEnv parent config k = parent k) := by
  refine ⟨?_, ?_, ?_, ?_, ?_, ?_, ?_⟩
  · simp [buildChildEnv]
  · simp [buildChildEnv]
  · simp [buildChildEnv]
  · simp [buildChildEnv]
  · rintro (h | h) <;> simp [buildChildEnv, jsOr, h]
  · intro v hv hne
    simp [buildChildEnv, jsOr, hv, hne]
  · intro k h1 h2 h3 h4 h5
    simp [buildChildEnv, h1, h2, h3, h4, h5]

/-- Witness for the amended C8: an absent NODE_ENV is defaulted, a
non-empty one is kept, and an unrelated variable is inherited. -/
theorem buildChildEnv_inherit_overlay_default_witness :
    buildChildEnv (fun _ => none) cfg0 "NODE_ENV" = some "development" ∧
    buildChildEnv (fun _ => some "production") cfg0 "NODE_ENV" = some "production" ∧
    buildChildEnv (fun _ => some "production") cfg0 "HOME" = some "production" :=
  ⟨(buildChildEnv_inherit_overlay_default (fun _ => none) cfg0).2.2.2.2.1 (Or.inl rfl),
   (buildChildEnv_inherit_overlay_default (fun _ => some "production") cfg0).2.2.2.2.2.1
     "production" rfl (by decide),
   (buildChildEnv_inherit_overlay_default (fun _ => some "production") cfg0).2.2.2.2.2.2
     "HOME" (by decide) (by decide) (by decide) (by decide) (by decide)⟩
